import Mathlib

/-!
Verification of the scout-xcode transcoding worker (`src/index.js` and the
`SqsQueue` module) against its natural-language specification.

The JavaScript program is shallowly embedded as pure Lean functions.  External
collaborators (the JSON platform functions, SQS, S3, ffmpeg, the filesystem and
the uuid generator) are modelled by an `Env` record of call outcomes; the
environment variables read through `process.env` are modelled by a `Config`
record.  Each embedded function returns the list of observable service calls it
performs (an `Event` trace) together with its settled promise value, following
the temporal order the Node event loop imposes on the source: in particular the
`if (messageProcessed)` check in `receiveMessage` runs before the
`transcodeFile(...).then(...)` callback can fire, so events of that callback
appear strictly after the point where `removeFromQueue` could have run.
-/

/-- JavaScript values produced by `JSON.parse`, as far as the program inspects
them: the pipeline only reads the `filename` property and tests it for
truthiness. -/
inductive Json where
  | null
  | bool (b : Bool)
  | num (n : Int)
  | str (s : String)
  | arr (elems : List Json)
  | obj (fields : List (String × Json))
  deriving Repr, BEq

/-- Property lookup `j.k` on a parsed value: `none` models `undefined`. -/
def Json.getField : Json → String → Option Json
  | .obj fields, k => fields.lookup k
  | _, _ => none

/-- JavaScript truthiness of `jsonBody.filename` (missing property is
`undefined`, hence falsy; `""`, `0`, `false`, `null` are falsy). -/
def Json.truthy : Option Json → Bool
  | none => false
  | some .null => false
  | some (.bool b) => b
  | some (.num n) => n != 0
  | some (.str s) => s != ""
  | some (.arr _) => true
  | some (.obj _) => true

/-- Truthiness of an environment variable: `process.env.X` is falsy when the
variable is absent or set to the empty string. -/
def envTruthy : Option String → Bool
  | none => false
  | some s => s != ""

/-- `a || b` on an environment variable and a string default, as in
`process.env.OPUS_BIT_RATE || '24000'`. -/
def jsOr (a : Option String) (b : String) : String :=
  match a with
  | some s => if s = "" then b else s
  | none => b

/-- Replace the first occurrence of `pat` in a character list, as JavaScript
`String.prototype.replace` does with a string pattern. -/
def replaceFirstChars (pat rep : List Char) : List Char → List Char
  | [] => []
  | c :: rest =>
    if pat.isPrefixOf (c :: rest) then rep ++ (c :: rest).drop pat.length
    else c :: replaceFirstChars pat rep rest

/-- JavaScript `s.replace(pat, rep)` with string arguments: only the first
occurrence is replaced. -/
def jsReplace (s pat rep : String) : String :=
  ⟨replaceFirstChars pat.data rep.data s.data⟩

/-- Node `path.basename`: trailing separators are dropped, then the portion
after the last `/` is returned (`/` for an all-separator path). -/
def basename (p : String) : String :=
  let cs := p.data
  let trimmed := (cs.reverse.dropWhile (· = '/')).reverse
  if trimmed.isEmpty then (if cs.isEmpty then "" else "/")
  else ⟨(trimmed.reverse.takeWhile (· ≠ '/')).reverse⟩

/-- The argument record handed to `sqs.sendMessage` by `SqsQueue.add`. -/
structure SendMessageParams where
  MessageGroupId : String
  MessageDeduplicationId : String
  MessageBody : String
  QueueUrl : String
  deriving Repr, DecidableEq

/-- Observable service calls and error logs of the worker, in the order they
are issued.  `logger.debug` calls are not tracked: they carry no pipeline
decision. -/
inductive Event where
  | logError (msg : String)
  | setQueueAttributes (queueUrl : Option String) (redrivePolicyAttr : String)
  | headObject (bucket key : String)
  | ffmpegRun (url output bitrate : String)
  | s3UploadCall (bucket key bodyPath : String)
  | unlink (path : String)
  | deleteMessage (queueUrl : Option String) (receiptHandle : String)
  | sqsSendMessage (params : SendMessageParams)
  deriving Repr, DecidableEq

/-- Outcome of an ffmpeg job on a given source url and output path:
`threw` models the synchronous exception caught by the `try` block, `errored`
the asynchronous `error` event with its message, `ended` the `end` event. -/
inductive FfmpegOutcome where
  | ended
  | errored (errMessage : String)
  | threw (errMessage : String)
  deriving Repr, DecidableEq

/-- Outcome reported by the `s3.upload` callback. -/
inductive UploadOutcome where
  | succeeded
  | failed (errMessage : String)
  deriving Repr, DecidableEq

/-- Settled state of the promise returned by `initQueue`. -/
inductive InitResult where
  | resolved
  | rejected (reason : String)
  deriving Repr, DecidableEq

/-- The environment variables the repository reads (plus the optional
failure-queue address named by the specification's configuration surface,
which no function in `src/index.js` reads). -/
structure Config where
  SQS_QUEUE : Option String
  SQS_DLQ_ARN : Option String
  POLLY_S3_BUCKET : String
  OPUS_BIT_RATE : Option String
  FAILURE_QUEUE : Option String

/-- Outcomes of all external collaborators: the JSON platform functions, S3,
SQS, ffmpeg, the filesystem and the uuid generator.  Each field fixes what the
corresponding callback reports for given arguments, so every embedded run is
deterministic once an `Env` is chosen. -/
structure Env where
  parse : String → Except String Json
  stringify : Json → String
  headObjectResolves : String → String → Bool
  ffmpegOutcome : String → String → FfmpegOutcome
  readStreamError : String → Option String
  uploadOutcome : String → String → UploadOutcome
  unlinkError : String → Option String
  deleteError : String → Option String
  setQueueAttributesError : Option String
  uuidgen : Nat → String
  sendMessageError : SendMessageParams → Option String

/-- A unit of work as received from SQS. -/
structure Message where
  Body : String
  ReceiptHandle : String
  deriving Repr, DecidableEq

/-- `const QUEUE_RETRY_COUNT = 3`. -/
def QUEUE_RETRY_COUNT : Nat := 3

/-- The `RedrivePolicy` attribute string built by `initQueue`:
`{"deadLetterTargetArn":"<arn>","maxReceiveCount":"3"}`. -/
def redrivePolicy (arn : String) : String :=
  "\x7b\"deadLetterTargetArn\":\"" ++ arn ++ "\",\"maxReceiveCount\":\"" ++
    toString QUEUE_RETRY_COUNT ++ "\"\x7d"

/-- `initQueue`: when `SQS_DLQ_ARN` is set (truthy) it issues
`setQueueAttributes` with the redrive policy, logs a setup error but resolves
either way; when `SQS_DLQ_ARN` is not set it rejects.  Note the guard is on the
dead-letter ARN: `SQS_QUEUE` is never checked. -/
def initQueue (cfg : Config) (env : Env) : List Event × InitResult :=
  if envTruthy cfg.SQS_DLQ_ARN then
    let arn := cfg.SQS_DLQ_ARN.getD ""
    let call := Event.setQueueAttributes cfg.SQS_QUEUE (redrivePolicy arn)
    match env.setQueueAttributesError with
    | some e => ([call, Event.logError ("DLQ setup error:" ++ e)], .resolved)
    | none => ([call], .resolved)
  else
    ([], .rejected "DLQ address not specified in env. Cannot initialize mesage queue.")

/-- The top-level `initQueue().then(() => { receiveMessage(); }, error =>
logger.error(error))`: returns the startup trace and whether the receive loop
was entered. -/
def startup (cfg : Config) (env : Env) : List Event × Bool :=
  let init := initQueue cfg env
  match init.2 with
  | .resolved => (init.1, true)
  | .rejected reason => (init.1 ++ [Event.logError reason], false)

/-- `checkFileExistence`: derives the candidate output key by substituting
`mp3` with `opus` and issues a metadata `headObject` query; a resolved query
means the file exists, any rejection is reported as `false`. -/
def checkFileExistence (cfg : Config) (env : Env) (filename : String) :
    List Event × Bool :=
  if filename != "" then
    let outputName := jsReplace filename "mp3" "opus"
    ([Event.headObject cfg.POLLY_S3_BUCKET outputName],
      env.headObjectResolves cfg.POLLY_S3_BUCKET outputName)
  else ([], false)

/-- `transcodeFile`: builds the source url and the output name
`'./' + filename.replace('mp3','opus')`, starts the ffmpeg job and settles with
the output name on the `end` event, or rejects (after logging) on the `error`
event or on a synchronous construction exception. -/
def transcodeFile (cfg : Config) (env : Env) (filename : String) :
    List Event × Except String String :=
  let url := "https://s3.amazonaws.com/" ++ cfg.POLLY_S3_BUCKET ++ "/" ++ filename
  let outputName := "./" ++ jsReplace filename "mp3" "opus"
  let bitrate := jsOr cfg.OPUS_BIT_RATE "24000"
  match env.ffmpegOutcome url outputName with
  | .threw e => ([Event.logError ("error is: " ++ e)], .error e)
  | .errored e =>
      ([Event.ffmpegRun url outputName bitrate,
        Event.logError ("Cannot process audio: " ++ e)], .error e)
  | .ended => ([Event.ffmpegRun url outputName bitrate], .ok outputName)

/-- `storeFile`: uploads the local artifact under its base name.  A read-stream
error rejects first (the upload call is still issued, but its callback can no
longer settle the promise).  An upload error is logged and rejects without any
local cleanup.  On upload success the promise is resolved *before* the
best-effort `fs.unlink`, whose failure is only logged. -/
def storeFile (cfg : Config) (env : Env) (opusFilename : String) :
    List Event × Except String Unit :=
  let key := basename opusFilename
  let call := Event.s3UploadCall cfg.POLLY_S3_BUCKET key opusFilename
  match env.readStreamError opusFilename with
  | some e => ([call], .error e)
  | none =>
    match env.uploadOutcome cfg.POLLY_S3_BUCKET key with
    | .failed e => ([call, Event.logError ("error uploading " ++ e)], .error e)
    | .succeeded =>
      let unlinkEvents :=
        match env.unlinkError opusFilename with
        | some ue => [Event.unlink opusFilename,
                      Event.logError ("failed to delete file:" ++ ue)]
        | none => [Event.unlink opusFilename]
      (call :: unlinkEvents, .ok ())

/-- `removeFromQueue`: issues `sqs.deleteMessage` for the message's receipt
handle; a delete error is only logged. -/
def removeFromQueue (cfg : Config) (env : Env) (msg : Message) : List Event :=
  Event.deleteMessage cfg.SQS_QUEUE msg.ReceiptHandle ::
    (match env.deleteError msg.ReceiptHandle with
     | some e => [Event.logError e]
     | none => [])

/-- The message-format validation of `receiveMessage`: `JSON.parse` the body,
then require a truthy `filename` property; the thrown string (with its
trailing space, as in the source) or the parse error is what the catch block
logs. -/
def validateBody (env : Env) (body : String) : Except String Json :=
  match env.parse body with
  | .error e => .error e
  | .ok j =>
    if Json.truthy (j.getField "filename") then .ok j
    else .error "Expected \"filename\" value in message "

/-- The per-message body of the `data.Messages.forEach` handler in
`receiveMessage`.  On a validation error it logs and returns.  Otherwise it
awaits `checkFileExistence`; on a hit it sets `messageProcessed` and reaches
`removeFromQueue`.  On a miss it only *schedules*
`transcodeFile(...).then(newFileName => { storeFile(newFileName);
messageProcessed = true; })`: the synchronous `if (messageProcessed)` check
runs before that promise can settle, so `removeFromQueue` is unreachable on
this branch and the `then`-callback events follow it.  A rejection of the
chain is unhandled (the outer `try` only catches synchronous throws, and
`transcodeFile` never throws synchronously), so a transcode failure produces
no further pipeline events. -/
def processMessage (cfg : Config) (env : Env) (msg : Message) : List Event :=
  match validateBody env msg.Body with
  | .error e => [Event.logError ("Message format err: " ++ e)]
  | .ok j =>
    match j.getField "filename" with
    | some (.str filename) =>
      let chk := checkFileExistence cfg env filename
      if chk.2 then
        chk.1 ++ removeFromQueue cfg env msg
      else
        let t := transcodeFile cfg env filename
        chk.1 ++ t.1 ++
          (match t.2 with
           | .ok newFileName => (storeFile cfg env newFileName).1
           | .error _ => [])
    | _ =>
      -- a truthy non-string `filename` makes `filename.replace` throw inside
      -- `checkFileExistence` before any service call; the rejected `await`
      -- escapes the handler and nothing further runs for this message
      []

/-- The failure-queue module (`SqsQueue`): url and message-group id fixed at
construction. -/
structure SqsQueue where
  url : String
  groupId : String

/-- `SqsQueue.add`: sends the serialized object with a fresh
`MessageDeduplicationId` from the uuid generator (one fresh value per call,
indexed here by the attempt number) and the instance's fixed
`MessageGroupId`.  The callback calls `reject('SQS send error', err)` on an
error and then falls through to the unconditional `resolve()`; the first
settlement wins, so an error rejects the returned promise with the string
`SQS send error` — nothing is logged and nothing is swallowed. -/
def SqsQueue.add (q : SqsQueue) (env : Env) (attempt : Nat) (messageObj : Json) :
    List Event × Except String Unit :=
  let params : SendMessageParams :=
    { MessageGroupId := q.groupId
      MessageDeduplicationId := env.uuidgen attempt
      MessageBody := env.stringify messageObj
      QueueUrl := q.url }
  match env.sendMessageError params with
  | some _ => ([Event.sqsSendMessage params], .error "SQS send error")
  | none => ([Event.sqsSendMessage params], .ok ())

/-- Does an event invoke the uploader (`s3.upload` in `storeFile`)? -/
def Event.isUploadCall : Event → Bool
  | .s3UploadCall _ _ _ => true
  | _ => false

/-- Does an event start the transcoding engine? -/
def Event.isFfmpegRun : Event → Bool
  | .ffmpegRun _ _ _ => true
  | _ => false

/-- Does an event delete a local file? -/
def Event.isUnlink : Event → Bool
  | .unlink _ => true
  | _ => false

/-- Does an event delete a message from the primary queue? -/
def Event.isDeleteMessage : Event → Bool
  | .deleteMessage _ _ => true
  | _ => false

/-- Does an event publish to a failure destination (`sqs.sendMessage`, the
only publishing primitive in the repository, lives in `SqsQueue.add`)? -/
def Event.isSqsSend : Event → Bool
  | .sqsSendMessage _ => true
  | _ => false

/-- The trace invokes the Storage Uploader. -/
def invokesUploader (tr : List Event) : Bool := tr.any Event.isUploadCall

/-- The trace invokes the Transcoder engine. -/
def invokesTranscoder (tr : List Event) : Bool := tr.any Event.isFfmpegRun

/-- The trace deletes the message from the primary queue. -/
def deletesFromQueue (tr : List Event) : Bool := tr.any Event.isDeleteMessage

/-- The trace hands a record to the Failure Router. -/
def invokesFailureRouter (tr : List Event) : Bool := tr.any Event.isSqsSend

/-- The key the Existence Checker queries for a filename. -/
def deriveKey (filename : String) : String := jsReplace filename "mp3" "opus"

/-- The key the Uploader stores under: the base name of the Transcoder's
output path `'./' + filename.replace('mp3','opus')`. -/
def uploadKey (filename : String) : String :=
  basename ("./" ++ jsReplace filename "mp3" "opus")

/-! ## Concrete fixtures for witnesses and counterexamples -/

/-- A quiescent environment: parsing fails, nothing exists in the store,
every service call succeeds.  Fixtures override individual fields. -/
def envDefault : Env where
  parse := fun _ => .error "SyntaxError: Unexpected token"
  stringify := fun _ => ""
  headObjectResolves := fun _ _ => false
  ffmpegOutcome := fun _ _ => .ended
  readStreamError := fun _ => none
  uploadOutcome := fun _ _ => .succeeded
  unlinkError := fun _ => none
  deleteError := fun _ => none
  setQueueAttributesError := none
  uuidgen := fun n => "uuid-" ++ toString n
  sendMessageError := fun _ => none

/-- A fully configured deployment. -/
def cfgA : Config where
  SQS_QUEUE := some "https://sqs.example/q"
  SQS_DLQ_ARN := some "arn:aws:sqs:us-east-1:1:dlq"
  POLLY_S3_BUCKET := "bucket"
  OPUS_BIT_RATE := none
  FAILURE_QUEUE := some "https://sqs.example/fail"

/-- A deployment with no primary queue address but a dead-letter ARN. -/
def cfgNoQueue : Config where
  SQS_QUEUE := none
  SQS_DLQ_ARN := some "arn:aws:sqs:us-east-1:1:dlq"
  POLLY_S3_BUCKET := "bucket"
  OPUS_BIT_RATE := none
  FAILURE_QUEUE := none

/-- A deployment with a primary queue address but no dead-letter ARN. -/
def cfgNoDlq : Config where
  SQS_QUEUE := some "https://sqs.example/q"
  SQS_DLQ_ARN := none
  POLLY_S3_BUCKET := "bucket"
  OPUS_BIT_RATE := none
  FAILURE_QUEUE := none

/-- Scenario A message: body `{"filename":"episode1.mp3"}`. -/
def msgA : Message where
  Body := "\x7b\"filename\":\"episode1.mp3\"\x7d"
  ReceiptHandle := "rh-1"

/-- A message whose body is the JSON object `{}` (no filename). -/
def msgEmpty : Message where
  Body := "\x7b\x7d"
  ReceiptHandle := "rh-2"

/-- `JSON.parse` restricted to the two fixture bodies. -/
def parseFix : String → Except String Json := fun s =>
  if s = "\x7b\"filename\":\"episode1.mp3\"\x7d" then
    .ok (.obj [("filename", .str "episode1.mp3")])
  else if s = "\x7b\x7d" then .ok (.obj [])
  else .error "SyntaxError: Unexpected token"

/-- Scenario A environment: the artifact is absent, the engine and the upload
succeed. -/
def envA : Env := { envDefault with parse := parseFix }

/-- Environment in which the engine reports an error. -/
def envEngineFail : Env :=
  { envDefault with parse := parseFix, ffmpegOutcome := fun _ _ => .errored "boom" }

/-- Environment in which the derived artifact already exists in the store. -/
def envDup : Env :=
  { envDefault with parse := parseFix, headObjectResolves := fun _ _ => true }

/-- Environment in which the one-time `setQueueAttributes` call errors. -/
def envSetQAErr : Env := { envDefault with setQueueAttributesError := some "qa-err" }

/-- Environment in which `sqs.sendMessage` reports an error. -/
def envSendFail : Env := { envDefault with sendMessageError := fun _ => some "send-err" }

/-- Environment in which the local `fs.unlink` after a successful upload
fails. -/
def envUnlinkFail : Env :=
  { envDefault with parse := parseFix, unlinkError := fun _ => some "EACCES" }

/-- The failure-queue instance the specification describes. -/
def routerQ : SqsQueue where
  url := "https://sqs.example/fail"
  groupId := "scout-xcode"

/-- Environment in which the store upload reports an error. -/
def envUploadFail : Env :=
  { envDefault with parse := parseFix, uploadOutcome := fun _ _ => .failed "denied" }

/-! ## Helper lemmas on the embedded pipeline -/

/-- A validation failure short-circuits the handler to a single error log. -/
lemma processMessage_formatError {env : Env} {msg : Message} {e : String}
    (cfg : Config) (h : validateBody env msg.Body = .error e) :
    processMessage cfg env msg = [Event.logError ("Message format err: " ++ e)] := by
  unfold processMessage
  rw [h]

/-- With a parsed body carrying a nonempty string filename, validation returns
the parsed object. -/
lemma validateBody_ok {env : Env} {body : String} {j : Json} {f : String}
    (hp : env.parse body = .ok j)
    (hf : j.getField "filename" = some (.str f)) (hne : f ≠ "") :
    validateBody env body = .ok j := by
  simp [validateBody, hp, hf, Json.truthy, hne]

/-- Duplicate path: an existence hit reaches `removeFromQueue`. -/
lemma processMessage_duplicate {cfg : Config} {env : Env} {msg : Message}
    {j : Json} {f : String}
    (hp : env.parse msg.Body = .ok j)
    (hf : j.getField "filename" = some (.str f)) (hne : f ≠ "")
    (hex : env.headObjectResolves cfg.POLLY_S3_BUCKET (jsReplace f "mp3" "opus") = true) :
    processMessage cfg env msg =
      Event.headObject cfg.POLLY_S3_BUCKET (jsReplace f "mp3" "opus") ::
        removeFromQueue cfg env msg := by
  unfold processMessage
  rw [validateBody_ok hp hf hne]
  simp [hf, checkFileExistence, hne, hex]

/-- Miss path: the handler starts the transcode chain, and since the
`if (messageProcessed)` check runs before the promise settles,
`removeFromQueue` is not reached on this branch. -/
lemma processMessage_miss {cfg : Config} {env : Env} {msg : Message}
    {j : Json} {f : String}
    (hp : env.parse msg.Body = .ok j)
    (hf : j.getField "filename" = some (.str f)) (hne : f ≠ "")
    (hex : env.headObjectResolves cfg.POLLY_S3_BUCKET (jsReplace f "mp3" "opus") = false) :
    processMessage cfg env msg =
      Event.headObject cfg.POLLY_S3_BUCKET (jsReplace f "mp3" "opus") ::
        ((transcodeFile cfg env f).1 ++
          (match (transcodeFile cfg env f).2 with
           | .ok newFileName => (storeFile cfg env newFileName).1
           | .error _ => [])) := by
  unfold processMessage
  rw [validateBody_ok hp hf hne]
  simp [hf, checkFileExistence, hne, hex]

/-- The transcoder never issues a queue delete. -/
lemma transcodeFile_no_delete (cfg : Config) (env : Env) (f : String) :
    (transcodeFile cfg env f).1.any Event.isDeleteMessage = false := by
  unfold transcodeFile
  cases h : env.ffmpegOutcome
      ("https://s3.amazonaws.com/" ++ cfg.POLLY_S3_BUCKET ++ "/" ++ f)
      ("./" ++ jsReplace f "mp3" "opus") <;>
    simp [h, Event.isDeleteMessage]

/-- The uploader never issues a queue delete. -/
lemma storeFile_no_delete (cfg : Config) (env : Env) (p : String) :
    (storeFile cfg env p).1.any Event.isDeleteMessage = false := by
  unfold storeFile
  cases h1 : env.readStreamError p
  · cases h2 : env.uploadOutcome cfg.POLLY_S3_BUCKET (basename p)
    · cases h3 : env.unlinkError p <;>
        simp [h1, h2, h3, Event.isDeleteMessage]
    · simp [h1, h2, Event.isDeleteMessage]
  · simp [h1, Event.isDeleteMessage]

/-- Every character of the replaced list comes from the replacement or from the
original list. -/
lemma mem_of_mem_replaceFirstChars {pat rep : List Char} {c : Char} :
    ∀ {l : List Char}, c ∈ replaceFirstChars pat rep l → c ∈ rep ∨ c ∈ l := by
  intro l
  induction l with
  | nil => intro h; simp [replaceFirstChars] at h
  | cons a as ih =>
    intro h
    rw [replaceFirstChars] at h
    split at h
    · rcases List.mem_append.1 h with h1 | h2
      · exact Or.inl h1
      · exact Or.inr (List.mem_of_mem_drop h2)
    · rcases List.mem_cons.1 h with rfl | h2
      · exact Or.inr (List.mem_cons_self _ _)
      · rcases ih h2 with h3 | h4
        · exact Or.inl h3
        · exact Or.inr (List.mem_cons_of_mem _ h4)

/-- Replacement with a nonempty replacement string keeps a nonempty list
nonempty. -/
lemma replaceFirstChars_ne_nil {pat rep l : List Char}
    (hl : l ≠ []) (hrep : rep ≠ []) : replaceFirstChars pat rep l ≠ [] := by
  cases l with
  | nil => exact absurd rfl hl
  | cons a as =>
    rw [replaceFirstChars]
    split
    · simp [hrep]
    · simp

/-- `takeWhile` stops exactly at the first failing element after a satisfying
prefix. -/
lemma takeWhile_append_of_all {p : Char → Bool} {l : List Char} {x : Char}
    (r : List Char) (hl : ∀ c ∈ l, p c = true) (hx : p x = false) :
    (l ++ x :: r).takeWhile p = l := by
  induction l with
  | nil => simp [List.takeWhile_cons, hx]
  | cons a as ih =>
    have ha := hl a (List.mem_cons_self _ _)
    simp [List.takeWhile_cons, ha, ih (fun c hc => hl c (List.mem_cons_of_mem _ hc))]

/-- For a nonempty separator-free tail, `basename` of `./<tail>` is the tail
itself. -/
lemma basename_dot_slash {g : List Char} (hg : g ≠ [])
    (hs : ∀ c ∈ g, c ≠ '/') : basename ⟨'.' :: '/' :: g⟩ = ⟨g⟩ := by
  cases hgr : g.reverse with
  | nil => exact absurd (by simpa using hgr) hg
  | cons b bs =>
    have hb : b ∈ g := by
      have hmem : b ∈ g.reverse := by rw [hgr]; exact List.mem_cons_self _ _
      simpa using hmem
    have hrev : ('.' :: '/' :: g).reverse = b :: (bs ++ ['/', '.']) := by
      simp [hgr]
    have hdrop : (b :: (bs ++ ['/', '.'])).dropWhile (fun x => decide (x = '/')) =
        b :: (bs ++ ['/', '.']) := by
      rw [List.dropWhile_cons]
      simp [hs b hb]
    have htake : ((b :: bs) ++ '/' :: ['.']).takeWhile (fun x => decide (x ≠ '/')) = b :: bs := by
      refine takeWhile_append_of_all ['.'] ?_ (by decide)
      intro c hc
      have hcg : c ∈ g := by rw [← hgr] at hc; simpa using hc
      simp [hs c hcg]
    have hT : ((('.' :: '/' :: g).reverse).dropWhile (fun x => decide (x = '/'))).reverse
        = '.' :: '/' :: g := by
      rw [hrev, hdrop, ← hrev, List.reverse_reverse]
    simp only [basename, String.data]
    rw [hT, hrev, ← List.cons_append, htake, ← hgr, List.reverse_reverse]
    simp

/-! ## Claims -/

/-- C1: the claim says that on the non-duplicate success path the pipeline
stores the converted artifact and then deletes the message.  Evaluating the
embedded handler at Scenario A (body `filename: episode1.mp3`, artifact
absent, engine and upload succeed) shows the Uploader is invoked under the
derived key but `removeFromQueue` is never called: the `messageProcessed` flag
is read synchronously before the `then`-callback that sets it can run, so the
trace contains no delete event. -/
theorem C1_scenarioA_trace :
    processMessage cfgA envA msgA =
      [Event.headObject "bucket" "episode1.opus",
       Event.ffmpegRun "https://s3.amazonaws.com/bucket/episode1.mp3"
         "./episode1.opus" "24000",
       Event.s3UploadCall "bucket" "episode1.opus" "./episode1.opus",
       Event.unlink "./episode1.opus"] ∧
    deletesFromQueue (processMessage cfgA envA msgA) = false := by decide

/-- C2 counterexample: on a message whose transcode fails while a failure
destination is configured, no Failure Record is handed to the Failure Router
(the pipeline never calls it), refuting the routing conjunct of the claim. -/
theorem C2_counterexample :
    envEngineFail.ffmpegOutcome "https://s3.amazonaws.com/bucket/episode1.mp3"
      "./episode1.opus" = FfmpegOutcome.errored "boom" ∧
    envTruthy cfgA.FAILURE_QUEUE = true ∧
    invokesFailureRouter (processMessage cfgA envEngineFail msgA) = false := by
  decide

/-- C2 amended: when the engine reports an error on the non-duplicate path,
the Uploader is never invoked for that message — but no Failure Record is
handed to the Failure Router either; the engine error is only logged. -/
theorem C2_amended (cfg : Config) (env : Env) (msg : Message) (j : Json)
    (f e : String)
    (hp : env.parse msg.Body = .ok j)
    (hf : j.getField "filename" = some (.str f)) (hne : f ≠ "")
    (hex : env.headObjectResolves cfg.POLLY_S3_BUCKET (jsReplace f "mp3" "opus") = false)
    (hfail : env.ffmpegOutcome
        ("https://s3.amazonaws.com/" ++ cfg.POLLY_S3_BUCKET ++ "/" ++ f)
        ("./" ++ jsReplace f "mp3" "opus") = .errored e) :
    invokesUploader (processMessage cfg env msg) = false ∧
    invokesFailureRouter (processMessage cfg env msg) = false ∧
    Event.logError ("Cannot process audio: " ++ e) ∈ processMessage cfg env msg := by
  have ht : transcodeFile cfg env f =
      ([Event.ffmpegRun
          ("https://s3.amazonaws.com/" ++ cfg.POLLY_S3_BUCKET ++ "/" ++ f)
          ("./" ++ jsReplace f "mp3" "opus") (jsOr cfg.OPUS_BIT_RATE "24000"),
        Event.logError ("Cannot process audio: " ++ e)], .error e) := by
    simp [transcodeFile, hfail]
  rw [processMessage_miss hp hf hne hex, ht]
  simp [invokesUploader, invokesFailureRouter, Event.isUploadCall, Event.isSqsSend]

/-- C2 witness: the amended theorem applied to Scenario A with a failing
engine. -/
theorem C2_amended_witness :
    invokesUploader (processMessage cfgA envEngineFail msgA) = false ∧
    invokesFailureRouter (processMessage cfgA envEngineFail msgA) = false ∧
    Event.logError ("Cannot process audio: " ++ "boom") ∈
      processMessage cfgA envEngineFail msgA :=
  C2_amended cfgA envEngineFail msgA (Json.obj [("filename", Json.str "episode1.mp3")])
    "episode1.mp3" "boom" rfl rfl (by decide) rfl rfl

/-- C3 counterexample: with no primary queue address but a dead-letter ARN
configured, `initQueue` resolves and the receive loop is entered, refuting
the claimed fatal check on the primary queue address. -/
theorem C3_counterexample :
    cfgNoQueue.SQS_QUEUE = none ∧ (startup cfgNoQueue envDefault).2 = true := by
  decide

/-- C3 amended: the only fatal startup check is on the dead-letter ARN: the
receive loop starts exactly when `SQS_DLQ_ARN` is configured (nonempty),
independently of whether `SQS_QUEUE` is set. -/
theorem C3_amended (cfg : Config) (env : Env) :
    (startup cfg env).2 = envTruthy cfg.SQS_DLQ_ARN := by
  unfold startup initQueue
  cases h : envTruthy cfg.SQS_DLQ_ARN
  · simp [h]
  · cases env.setQueueAttributesError <;> simp [h]

/-- C4 counterexample: a body that parses to `obj []` (no filename) while a
failure destination is configured produces no Failure Router call, refuting
the reporting conjunct of the claim. -/
theorem C4_counterexample :
    envA.parse msgEmpty.Body = Except.ok (Json.obj []) ∧
    envTruthy cfgA.FAILURE_QUEUE = true ∧
    invokesFailureRouter (processMessage cfgA envA msgEmpty) = false :=
  ⟨rfl, by decide, by decide⟩

/-- C4 amended: on a parse failure or a missing/empty filename the handler
only logs `Message format err: <detail>` and returns — the raw body is not
part of the error, nothing is reported to the Failure Router, and no
existence check, transcode, upload or delete happens for that message. -/
theorem C4_amended (cfg : Config) (env : Env) (msg : Message) (e : String)
    (h : validateBody env msg.Body = .error e) :
    processMessage cfg env msg = [Event.logError ("Message format err: " ++ e)] :=
  processMessage_formatError cfg h

/-- C4 witness: the amended theorem applied to the empty-object body. -/
theorem C4_amended_witness :
    processMessage cfgA envA msgEmpty =
      [Event.logError ("Message format err: " ++
        "Expected \"filename\" value in message ")] :=
  C4_amended cfgA envA msgEmpty _ rfl

/-- C5 counterexample: with no dead-letter ARN configured the receive loop
does not start at all, refuting the claimed optionality of the dead-letter
initializer. -/
theorem C5_counterexample :
    cfgNoDlq.SQS_DLQ_ARN = none ∧ (startup cfgNoDlq envDefault).2 = false := by
  decide

/-- C5 amended: when a dead-letter ARN is configured, `initQueue` sets the
redrive policy (dead-letter target plus `maxReceiveCount = 3`) on the primary
queue, resolves even when the call errors (the error is only logged) and the
loop starts; when no dead-letter ARN is configured, `initQueue` performs no
redrive call and rejects, so the receive loop never starts. -/
theorem C5_amended (cfg : Config) (env : Env) :
    (∀ arn, cfg.SQS_DLQ_ARN = some arn → arn ≠ "" →
      (initQueue cfg env).2 = InitResult.resolved ∧
      (startup cfg env).2 = true ∧
      Event.setQueueAttributes cfg.SQS_QUEUE (redrivePolicy arn) ∈ (initQueue cfg env).1 ∧
      (∀ e, env.setQueueAttributesError = some e →
        Event.logError ("DLQ setup error:" ++ e) ∈ (initQueue cfg env).1)) ∧
    (envTruthy cfg.SQS_DLQ_ARN = false →
      (initQueue cfg env).1 = [] ∧
      (initQueue cfg env).2 =
        InitResult.rejected "DLQ address not specified in env. Cannot initialize mesage queue." ∧
      (startup cfg env).2 = false) := by
  constructor
  · intro arn harn hne
    have ht : envTruthy cfg.SQS_DLQ_ARN = true := by simp [envTruthy, harn, hne]
    unfold startup initQueue
    rw [harn]
    simp [envTruthy, hne] at ht ⊢
    cases env.setQueueAttributesError <;> simp_all
  · intro hf
    unfold startup initQueue
    simp [hf]

/-- C5 witness: the amended theorem applied to a configured dead-letter ARN
with a failing redrive call, and to a deployment without one. -/
theorem C5_amended_witness :
    (initQueue cfgNoQueue envSetQAErr).2 = InitResult.resolved ∧
    (startup cfgNoQueue envSetQAErr).2 = true ∧
    Event.setQueueAttributes cfgNoQueue.SQS_QUEUE
      (redrivePolicy "arn:aws:sqs:us-east-1:1:dlq") ∈ (initQueue cfgNoQueue envSetQAErr).1 ∧
    Event.logError ("DLQ setup error:" ++ "qa-err") ∈ (initQueue cfgNoQueue envSetQAErr).1 ∧
    (startup cfgNoDlq envDefault).2 = false := by
  have h1 := (C5_amended cfgNoQueue envSetQAErr).1 "arn:aws:sqs:us-east-1:1:dlq"
    rfl (by decide)
  have h2 := (C5_amended cfgNoDlq envDefault).2 rfl
  exact ⟨h1.1, h1.2.1, h1.2.2.1, h1.2.2.2 "qa-err" rfl, h2.2.2⟩

/-- C6: on an existence hit the handler invokes neither the engine nor the
uploader and issues the queue delete for that message. -/
theorem C6_duplicate_path (cfg : Config) (env : Env) (msg : Message) (j : Json)
    (f : String)
    (hp : env.parse msg.Body = .ok j)
    (hf : j.getField "filename" = some (.str f)) (hne : f ≠ "")
    (hex : env.headObjectResolves cfg.POLLY_S3_BUCKET (jsReplace f "mp3" "opus") = true) :
    invokesTranscoder (processMessage cfg env msg) = false ∧
    invokesUploader (processMessage cfg env msg) = false ∧
    Event.deleteMessage cfg.SQS_QUEUE msg.ReceiptHandle ∈ processMessage cfg env msg := by
  rw [processMessage_duplicate hp hf hne hex]
  unfold removeFromQueue
  cases h : env.deleteError msg.ReceiptHandle <;>
    simp [invokesTranscoder, invokesUploader, Event.isFfmpegRun, Event.isUploadCall]

/-- C6 witness: the duplicate theorem applied to Scenario B. -/
theorem C6_duplicate_path_witness :
    invokesTranscoder (processMessage cfgA envDup msgA) = false ∧
    invokesUploader (processMessage cfgA envDup msgA) = false ∧
    Event.deleteMessage cfgA.SQS_QUEUE msgA.ReceiptHandle ∈
      processMessage cfgA envDup msgA :=
  C6_duplicate_path cfgA envDup msgA (Json.obj [("filename", Json.str "episode1.mp3")])
    "episode1.mp3" rfl rfl (by decide) rfl

/-- C7 counterexample: for the filename `a/b.mp3` the Existence Checker
queries `a/b.opus` while the Uploader stores under the base name `b.opus`,
so the dedup key and the upload key disagree. -/
theorem C7_counterexample : deriveKey "a/b.mp3" ≠ uploadKey "a/b.mp3" := by
  decide

/-- For a nonempty separator-free filename the base name of the transcoder
output path equals the derived key. -/
lemma uploadKey_eq_deriveKey_of_no_slash {f : String} (hne : f ≠ "")
    (hs : ∀ c ∈ f.data, c ≠ '/') : uploadKey f = deriveKey f := by
  unfold uploadKey deriveKey
  have hfd : f.data ≠ [] := by
    intro h
    apply hne
    cases f with
    | mk l =>
      simp only [String.data] at h
      subst h
      rfl
  have hrepne : replaceFirstChars "mp3".data "opus".data f.data ≠ [] :=
    replaceFirstChars_ne_nil hfd (by decide)
  have hrs : ∀ c ∈ replaceFirstChars "mp3".data "opus".data f.data, c ≠ '/' := by
    intro c hc
    rcases mem_of_mem_replaceFirstChars hc with h1 | h2
    · have hl : "opus".data = ['o', 'p', 'u', 's'] := rfl
      rw [hl] at h1
      simp only [List.mem_cons, List.not_mem_nil, or_false] at h1
      rcases h1 with rfl | rfl | rfl | rfl <;> decide
    · exact hs c h2
  have heq : ("./" ++ jsReplace f "mp3" "opus") =
      ⟨'.' :: '/' :: replaceFirstChars "mp3".data "opus".data f.data⟩ := rfl
  rw [heq, basename_dot_slash hrepne hrs]
  rfl

/-- C7 amended: the key derivation is a pure function of the filename,
computed by the same `mp3`→`opus` substitution in the Existence Checker and
the Transcoder.  For every nonempty filename containing no path separator:
the Existence Checker queries exactly `deriveKey f`; whenever the Transcoder
resolves, its output path is `./` + `deriveKey f` and the Uploader stores
that output under `deriveKey f` again (its base name), so the dedup key and
the eventual upload key agree; the two derivations can differ when the
filename contains a `/`. -/
theorem C7_amended (cfg : Config) (env : Env) (f : String) (hne : f ≠ "")
    (hs : ∀ c ∈ f.data, c ≠ '/') :
    (checkFileExistence cfg env f).1 =
      [Event.headObject cfg.POLLY_S3_BUCKET (deriveKey f)] ∧
    (∀ out, (transcodeFile cfg env f).2 = .ok out →
      out = "./" ++ deriveKey f ∧
      (storeFile cfg env out).1.head? =
        some (Event.s3UploadCall cfg.POLLY_S3_BUCKET (deriveKey f) out)) ∧
    uploadKey f = deriveKey f := by
  have hkey := uploadKey_eq_deriveKey_of_no_slash hne hs
  refine ⟨?_, ?_, hkey⟩
  · simp [checkFileExistence, hne, deriveKey]
  · intro out hout
    have hout2 : out = "./" ++ deriveKey f := by
      cases h : env.ffmpegOutcome
          ("https://s3.amazonaws.com/" ++ cfg.POLLY_S3_BUCKET ++ "/" ++ f)
          ("./" ++ jsReplace f "mp3" "opus")
      · simp only [transcodeFile, h, Except.ok.injEq] at hout
        rw [← hout]
        rfl
      · simp [transcodeFile, h] at hout
      · simp [transcodeFile, h] at hout
    refine ⟨hout2, ?_⟩
    have hbase : basename out = deriveKey f := by
      rw [hout2]
      exact hkey
    simp only [storeFile, hbase]
    cases h1 : env.readStreamError out
    · cases h2 : env.uploadOutcome cfg.POLLY_S3_BUCKET (deriveKey f)
      · cases h3 : env.unlinkError out <;> simp [h1, h2, h3]
      · simp [h1, h2]
    · simp [h1]

/-- C7 witness: the amended theorem applied at the Scenario A filename: the
checker queries `episode1.opus`, the transcoder output `./episode1.opus` is
stored under that same key, and the two derivations agree. -/
theorem C7_amended_witness :
    (checkFileExistence cfgA envA "episode1.mp3").1 =
      [Event.headObject cfgA.POLLY_S3_BUCKET (deriveKey "episode1.mp3")] ∧
    ("./episode1.opus" : String) = "./" ++ deriveKey "episode1.mp3" ∧
    (storeFile cfgA envA "./episode1.opus").1.head? =
      some (Event.s3UploadCall cfgA.POLLY_S3_BUCKET (deriveKey "episode1.mp3")
        "./episode1.opus") ∧
    uploadKey "episode1.mp3" = deriveKey "episode1.mp3" := by
  have h := C7_amended cfgA envA "episode1.mp3" (by decide) (by decide)
  have h2 := h.2.1 "./episode1.opus" rfl
  exact ⟨h.1, h2.1, h2.2, h.2.2⟩

/-- C8: when validation fails, or the non-duplicate path is taken (whatever the
transcode and store outcomes), `removeFromQueue` is never called for the
message, so failed messages remain on the primary queue for provider
redelivery. -/
theorem C8_failure_leaves_message (cfg : Config) (env : Env) (msg : Message)
    (h : (∃ e, validateBody env msg.Body = .error e) ∨
         (∃ j f, env.parse msg.Body = .ok j ∧
            j.getField "filename" = some (.str f) ∧
            env.headObjectResolves cfg.POLLY_S3_BUCKET (jsReplace f "mp3" "opus") = false)) :
    deletesFromQueue (processMessage cfg env msg) = false := by
  unfold deletesFromQueue
  rcases h with ⟨e, he⟩ | ⟨j, f, hp, hf, hex⟩
  · rw [processMessage_formatError cfg he]
    simp [Event.isDeleteMessage]
  · by_cases hne : f = ""
    · subst hne
      have he : validateBody env msg.Body =
          .error "Expected \"filename\" value in message " := by
        simp [validateBody, hp, hf, Json.truthy]
      rw [processMessage_formatError cfg he]
      simp [Event.isDeleteMessage]
    · rw [processMessage_miss hp hf hne hex]
      cases ht : (transcodeFile cfg env f).2 <;>
        simp [List.any_append, transcodeFile_no_delete, storeFile_no_delete,
          Event.isDeleteMessage]

/-- C8 witness: a failing transcode leaves the message in place. -/
theorem C8_failure_leaves_message_witness :
    deletesFromQueue (processMessage cfgA envEngineFail msgA) = false :=
  C8_failure_leaves_message cfgA envEngineFail msgA
    (Or.inr ⟨Json.obj [("filename", Json.str "episode1.mp3")], "episode1.mp3",
      rfl, rfl, rfl⟩)

/-- C9: `storeFile` rejects with the upload error and attempts no local
deletion on upload failure; on upload success it resolves, attempts the local
deletion exactly once, and a deletion failure is only logged (the resolved
outcome holds for every deletion behaviour of the filesystem). -/
theorem C9_storeFile_contract (cfg : Config) (env : Env) (p : String)
    (hstream : env.readStreamError p = none) :
    (∀ e, env.uploadOutcome cfg.POLLY_S3_BUCKET (basename p) = .failed e →
      (storeFile cfg env p).2 = .error e ∧
      (storeFile cfg env p).1.countP Event.isUnlink = 0) ∧
    (env.uploadOutcome cfg.POLLY_S3_BUCKET (basename p) = .succeeded →
      (storeFile cfg env p).2 = .ok () ∧
      (storeFile cfg env p).1.countP Event.isUnlink = 1 ∧
      (∀ ue, env.unlinkError p = some ue →
        Event.logError ("failed to delete file:" ++ ue) ∈ (storeFile cfg env p).1)) := by
  constructor
  · intro e hef
    simp [storeFile, hstream, hef, List.countP_cons, Event.isUnlink]
  · intro hok
    cases h3 : env.unlinkError p <;>
      simp [storeFile, hstream, hok, h3, List.countP_cons, Event.isUnlink]

/-- C9 witness: the contract applied to a failing upload and to a successful
upload with a failing local deletion. -/
theorem C9_storeFile_contract_witness :
    ((storeFile cfgA envUploadFail "./episode1.opus").2 = Except.error "denied" ∧
      (storeFile cfgA envUploadFail "./episode1.opus").1.countP Event.isUnlink = 0) ∧
    ((storeFile cfgA envUnlinkFail "./episode1.opus").2 = Except.ok () ∧
      (storeFile cfgA envUnlinkFail "./episode1.opus").1.countP Event.isUnlink = 1 ∧
      Event.logError ("failed to delete file:" ++ "EACCES") ∈
        (storeFile cfgA envUnlinkFail "./episode1.opus").1) := by
  have h1 := (C9_storeFile_contract cfgA envUploadFail "./episode1.opus" rfl).1
    "denied" rfl
  have h2 := (C9_storeFile_contract cfgA envUnlinkFail "./episode1.opus" rfl).2 rfl
  exact ⟨h1, h2.1, h2.2.1, h2.2.2 "EACCES" rfl⟩

/-- C10 counterexample: a failing `sendMessage` makes `SqsQueue.add` reject
with `SQS send error` — the error propagates to the caller and nothing is
logged (the trace holds only the send call), refuting the logged-and-swallowed
conjunct of the claim. -/
theorem C10_counterexample :
    (SqsQueue.add routerQ envSendFail 0 (Json.obj [])).1 =
      [Event.sqsSendMessage
        { MessageGroupId := "scout-xcode", MessageDeduplicationId := "uuid-0",
          MessageBody := "", QueueUrl := "https://sqs.example/fail" }] ∧
    (SqsQueue.add routerQ envSendFail 0 (Json.obj [])).2 =
      Except.error "SQS send error" :=
  ⟨rfl, rfl⟩

/-- C10 amended: `SqsQueue.add` publishes the serialized record with the
deduplication token freshly drawn from the generator at each attempt and the
fixed group identifier of the instance; on a send error, however, the returned
promise rejects with `SQS send error` (the reject precedes the unconditional
resolve), so the failure is neither logged nor swallowed but propagates to the
caller. -/
theorem C10_amended (q : SqsQueue) (env : Env) (n : Nat) (m : Json) :
    (SqsQueue.add q env n m).1 =
      [Event.sqsSendMessage
        { MessageGroupId := q.groupId, MessageDeduplicationId := env.uuidgen n,
          MessageBody := env.stringify m, QueueUrl := q.url }] ∧
    ((env.sendMessageError
        { MessageGroupId := q.groupId, MessageDeduplicationId := env.uuidgen n,
          MessageBody := env.stringify m, QueueUrl := q.url }).isSome →
      (SqsQueue.add q env n m).2 = .error "SQS send error") ∧
    (env.sendMessageError
        { MessageGroupId := q.groupId, MessageDeduplicationId := env.uuidgen n,
          MessageBody := env.stringify m, QueueUrl := q.url } = none →
      (SqsQueue.add q env n m).2 = .ok ()) := by
  cases h : env.sendMessageError
      { MessageGroupId := q.groupId, MessageDeduplicationId := env.uuidgen n,
        MessageBody := env.stringify m, QueueUrl := q.url } <;>
    simp [SqsQueue.add, h]

/-- C10 witness: the amended theorem applied to a succeeding and to a failing
send. -/
theorem C10_amended_witness :
    (SqsQueue.add routerQ envDefault 0 (Json.obj [])).2 = Except.ok () ∧
    (SqsQueue.add routerQ envSendFail 1 (Json.obj [])).2 =
      Except.error "SQS send error" :=
  ⟨(C10_amended routerQ envDefault 0 (Json.obj [])).2.2 rfl,
   (C10_amended routerQ envSendFail 1 (Json.obj [])).2.1 rfl⟩
